import Mathlib

/-!
Verification of the session/authorization slice of the datawoven repository:
the route-guard middleware, the cookie bridge (setAuthCookies / clearAuthCookies)
and the auth state store (AuthProvider with refreshUser / login / logout).

The middleware is embedded from the Next.js middleware source; the cookie
bridge and the auth provider are embedded from the AuthProvider source in the
knowledge-capture notes. JavaScript truthiness on optional strings (undefined
or the empty string are falsy) is modelled explicitly.
-/

namespace DataWoven

/-- Model of JavaScript string startsWith: character-list prefix test. -/
def jsStartsWith (s pre : String) : Bool := List.isPrefixOf pre.data s.data

/-- JavaScript truthiness of a string that may be undefined: false for
undefined and for the empty string, true otherwise. -/
def jsTruthy (o : Option String) : Bool :=
  match o with
  | none => false
  | some s => !(s == "")

/-- Model of the JavaScript expression a || b for an optional string a:
b when a is undefined or empty, a otherwise. -/
def jsOrElse (a : Option String) (b : String) : String :=
  match a with
  | none => b
  | some s => if s == "" then b else s

/-- The three auth cookies: none models an absent (or expired) cookie. -/
structure Cookies where
  accessToken : Option String
  idToken : Option String
  userGroup : Option String
deriving DecidableEq

/-- Decision of the route-guard middleware: NextResponse.next() or a
redirect to a target path with query parameters. -/
inductive Decision where
  | next : Decision
  | redirect : String → List (String × String) → Decision
deriving DecidableEq

/-- From the middleware source: protected-route classification by prefix. -/
def isAuthenticatedRoute (pathname : String) : Bool :=
  jsStartsWith pathname "/dashboard" ||
  jsStartsWith pathname "/discovery" ||
  jsStartsWith pathname "/implementation" ||
  jsStartsWith pathname "/account" ||
  jsStartsWith pathname "/admin"

/-- From the middleware source: admin-route classification. -/
def isAdminRoute (pathname : String) : Bool := jsStartsWith pathname "/admin"

/-- From the middleware source: public-route classification. -/
def isPublicRoute (pathname : String) : Bool :=
  jsStartsWith pathname "/login" ||
  jsStartsWith pathname "/signup" ||
  jsStartsWith pathname "/forgot-password" ||
  jsStartsWith pathname "/reset-password" ||
  pathname == "/"

/-- The route-guard middleware, embedded from the Next.js middleware source.
Inputs: the request path and the three cookies (presence of the two token
markers, value of the userGroup cookie). Cookie presence is isSome; the
userGroup comparison is the case-sensitive !== of the source. -/
def middleware (pathname : String) (cookies : Cookies) : Decision :=
  let isAuthenticated := cookies.accessToken.isSome && cookies.idToken.isSome
  if isAuthenticatedRoute pathname && !isAuthenticated then
    Decision.redirect "/login" [("redirect", pathname)]
  else if isAdminRoute pathname && isAuthenticated &&
      (cookies.userGroup != some "DataWovenAdmin") then
    Decision.redirect "/dashboard" [("error", "unauthorized")]
  else if isPublicRoute pathname && isAuthenticated &&
      jsStartsWith pathname "/login" then
    Decision.redirect "/dashboard" []
  else
    Decision.next

/-- A JWT as the cookie bridge sees it: its serialized string and the
cognito:groups claim of its payload ([] models an absent claim). -/
structure JWToken where
  raw : String
  groups : List String
deriving DecidableEq

/-- The tokens object of fetchAuthSession: both members may be undefined. -/
structure Tokens where
  accessToken : Option JWToken
  idToken : Option JWToken
deriving DecidableEq

/-- setAuthCookies from the AuthProvider source: writes the three cookies
only when both token strings are truthy; the userGroup cookie gets the
first group or the sentinel (groups[0] || "none" under JS truthiness). -/
def setAuthCookies (jar : Cookies) (tokens : Option Tokens) : Cookies :=
  let accessToken := (tokens.bind Tokens.accessToken).map JWToken.raw
  let idToken := (tokens.bind Tokens.idToken).map JWToken.raw
  let groups := ((tokens.bind Tokens.accessToken).map JWToken.groups).getD []
  let primaryGroup :=
    match groups.head? with
    | some g => if g == "" then "none" else g
    | none => "none"
  if jsTruthy accessToken && jsTruthy idToken then
    { accessToken := accessToken, idToken := idToken,
      userGroup := some primaryGroup }
  else
    jar

/-- clearAuthCookies from the AuthProvider source: expires all three
cookies, so all three become absent. -/
def clearAuthCookies (_jar : Cookies) : Cookies :=
  { accessToken := none, idToken := none, userGroup := none }

/-- The combined truthiness guard of setAuthCookies, named so invariants
can talk about it. -/
def tokensTruthy (tokens : Option Tokens) : Bool :=
  jsTruthy ((tokens.bind Tokens.accessToken).map JWToken.raw) &&
  jsTruthy ((tokens.bind Tokens.idToken).map JWToken.raw)

/-- User attributes as fetchUserAttributes returns them: an optional email
plus the remaining opaque key-value pairs. -/
structure Attributes where
  email : Option String
  rest : List (String × String)
deriving DecidableEq

/-- The User record of the auth context. -/
structure User where
  email : String
  userId : String
  groups : List String
  attributes : Attributes
deriving DecidableEq

/-- Result of getCurrentUser: userId and optional signInDetails.loginId. -/
structure CurrentUser where
  userId : String
  loginId : Option String
deriving DecidableEq

/-- Result of fetchAuthSession: the tokens object may be undefined. -/
structure SessionData where
  tokens : Option Tokens
deriving DecidableEq

/-- The observable state of the auth provider: the React user and loading
states together with the document cookies the helpers write. -/
structure AuthState where
  user : Option User
  loading : Bool
  cookies : Cookies
deriving DecidableEq

/-- Outcome of the three awaited provider calls inside refreshUser: either
all succeed with their results, or some call throws (the catch treats every
failure uniformly and no state is written before the first failure). -/
inductive RefreshOutcome where
  | ok : CurrentUser → SessionData → Attributes → RefreshOutcome
  | err : RefreshOutcome
deriving DecidableEq

/-- The raw provider outcome object that signIn resolves with. -/
structure SignInResult where
  raw : String
deriving DecidableEq

/-- Outcome of the awaited signIn call inside login. -/
inductive LoginOutcome where
  | ok : SignInResult → LoginOutcome
  | err : String → LoginOutcome
deriving DecidableEq

/-- Outcome of the awaited signOut call inside logout. -/
inductive LogoutOutcome where
  | ok : LogoutOutcome
  | err : String → LogoutOutcome
deriving DecidableEq

/-- refreshUser from the AuthProvider source. On success it derives the
group list from the access-token claim, writes the cookies via
setAuthCookies, and sets the user (email falls back from attributes.email
to signInDetails.loginId to ""). On any failure it sets the user to null.
The finally block always leaves loading false. refreshUser itself never
throws, so its result is a plain state. -/
def refreshUser (s : AuthState) (o : RefreshOutcome) : AuthState :=
  match o with
  | RefreshOutcome.ok currentUser session attrs =>
      let groups := ((session.tokens.bind Tokens.accessToken).map
        JWToken.groups).getD []
      let cookies := setAuthCookies s.cookies session.tokens
      { user := some
          { email := jsOrElse attrs.email (jsOrElse currentUser.loginId "")
            userId := currentUser.userId
            groups := groups
            attributes := attrs }
        loading := false
        cookies := cookies }
  | RefreshOutcome.err =>
      { s with user := none, loading := false }

/-- login from the AuthProvider source: returns the raw signIn result on
success and rethrows the error on failure; it mutates neither the user nor
the cookies. -/
def login (s : AuthState) (o : LoginOutcome) :
    AuthState × Except String SignInResult :=
  match o with
  | LoginOutcome.ok r => (s, Except.ok r)
  | LoginOutcome.err e => (s, Except.error e)

/-- logout from the AuthProvider source: when signOut succeeds it clears
the cookies and sets the user to null; when signOut throws, the catch logs
and rethrows, so neither clearing happens. -/
def logout (s : AuthState) (o : LogoutOutcome) :
    AuthState × Except String Unit :=
  match o with
  | LogoutOutcome.ok =>
      ({ s with cookies := clearAuthCookies s.cookies, user := none },
       Except.ok ())
  | LogoutOutcome.err e => (s, Except.error e)

/-- One auth-store operation together with the outcome of its provider
call. -/
inductive Op where
  | refreshOp : RefreshOutcome → Op
  | loginOp : LoginOutcome → Op
  | logoutOp : LogoutOutcome → Op
deriving DecidableEq

/-- State transition of one operation (the Except result is dropped: this
is the state the caller observes afterwards). -/
def step (s : AuthState) (op : Op) : AuthState :=
  match op with
  | Op.refreshOp o => refreshUser s o
  | Op.loginOp o => (login s o).1
  | Op.logoutOp o => (logout s o).1

/-- Initial provider state: no user, loading true, no auth cookies. -/
def initState : AuthState :=
  { user := none, loading := true,
    cookies := { accessToken := none, idToken := none, userGroup := none } }

/-- The state reached by a sequence of operations from the initial state. -/
def run (ops : List Op) : AuthState := ops.foldl step initState

/-- The cookie projection asserts authentication exactly when the
middleware isAuthenticated check passes: both marker cookies present. -/
def cookiesAssert (c : Cookies) : Bool :=
  c.accessToken.isSome && c.idToken.isSome

/-- A tokens object with both members present and truthy, carrying one
group, used in concrete evaluations. -/
def goodTokens : Tokens :=
  { accessToken := some { raw := "A", groups := ["Users"] },
    idToken := some { raw := "I", groups := [] } }

/-- A successful refreshUser outcome whose session carries goodTokens. -/
def goodRefresh : RefreshOutcome :=
  RefreshOutcome.ok
    { userId := "u1", loginId := some "user1" }
    { tokens := some goodTokens }
    { email := some "user1", rest := [] }

/-- A trace: one successful refresh (sets cookies and user) followed by
one failed refresh (clears the user but not the cookies). -/
def staleTrace : List Op :=
  [Op.refreshOp goodRefresh, Op.refreshOp RefreshOutcome.err]

/-- A sample signed-in provider state used in concrete evaluations. -/
def sampleSignedIn : AuthState :=
  { user := some
      { email := "user1", userId := "u1", groups := ["Users"],
        attributes := { email := some "user1", rest := [] } }
    loading := false
    cookies := { accessToken := some "A", idToken := some "I",
                 userGroup := some "Users" } }

/-- If the truthiness guard of setAuthCookies fails, nothing is written. -/
theorem setAuthCookies_not_truthy (jar : Cookies) (t : Option Tokens)
    (h : tokensTruthy t = false) : setAuthCookies jar t = jar := by
  unfold tokensTruthy at h
  simp only [setAuthCookies]
  rw [h]
  simp

/-- Restating a run over an appended single operation as one step. -/
theorem run_append_single (ops : List Op) (op : Op) :
    run (ops ++ [op]) = step (run ops) op := by
  simp [run, List.foldl_append]

/-- Extending the suffix of a history split by one operation that is not a
successful logout preserves the split. -/
theorem history_extend {ops : List Op} {op : Op}
    (hop : Op.logoutOp LogoutOutcome.ok ≠ op)
    (ih : ∃ pre cu sd attrs post,
      ops = pre ++ Op.refreshOp (RefreshOutcome.ok cu sd attrs) :: post ∧
      tokensTruthy sd.tokens = true ∧
      Op.logoutOp LogoutOutcome.ok ∉ post) :
    ∃ pre cu sd attrs post,
      ops ++ [op] = pre ++ Op.refreshOp (RefreshOutcome.ok cu sd attrs) :: post ∧
      tokensTruthy sd.tokens = true ∧
      Op.logoutOp LogoutOutcome.ok ∉ post := by
  obtain ⟨pre, cu, sd, attrs, post, heq, htt, hpost⟩ := ih
  refine ⟨pre, cu, sd, attrs, post ++ [op], ?_, htt, ?_⟩
  · rw [heq]
    simp
  · intro hmem
    rcases List.mem_append.mp hmem with hm | hm
    · exact hpost hm
    · exact hop (List.mem_singleton.mp hm)

/-- C1: for every path matching a protected prefix, a request with both
token-marker cookies absent redirects to /login with the original path in
the redirect query parameter, and never continues. -/
theorem routeGuard_protected_unauthenticated_redirects
    (p : String) (g : Option String) (h : isAuthenticatedRoute p = true) :
    middleware p ⟨none, none, g⟩ =
      Decision.redirect "/login" [("redirect", p)] ∧
    middleware p ⟨none, none, g⟩ ≠ Decision.next := by
  have he : middleware p ⟨none, none, g⟩ =
      Decision.redirect "/login" [("redirect", p)] := by
    simp [middleware, h]
  exact ⟨he, by rw [he]; intro hc; cases hc⟩

/-- Witness for C1 at the concrete path /dashboard. -/
theorem routeGuard_protected_unauthenticated_redirects_witness :
    isAuthenticatedRoute "/dashboard" = true ∧
    (middleware "/dashboard" ⟨none, none, none⟩ =
       Decision.redirect "/login" [("redirect", "/dashboard")] ∧
     middleware "/dashboard" ⟨none, none, none⟩ ≠ Decision.next) :=
  ⟨by decide,
   routeGuard_protected_unauthenticated_redirects "/dashboard" none (by decide)⟩

/-- C2: for every path matching the admin prefix, a request with both
token markers present and a userGroup cookie value different from the
DataWovenAdmin sentinel redirects to /dashboard with error=unauthorized. -/
theorem routeGuard_admin_nonadmin_redirects
    (p a i : String) (g : Option String)
    (hA : isAdminRoute p = true) (hg : g ≠ some "DataWovenAdmin") :
    middleware p ⟨some a, some i, g⟩ =
      Decision.redirect "/dashboard" [("error", "unauthorized")] := by
  simp [middleware, hA, hg]

/-- Witness for C2 at /admin with userGroup Users. -/
theorem routeGuard_admin_nonadmin_redirects_witness :
    isAdminRoute "/admin" = true ∧
    (some "Users" : Option String) ≠ some "DataWovenAdmin" ∧
    middleware "/admin" ⟨some "A", some "I", some "Users"⟩ =
      Decision.redirect "/dashboard" [("error", "unauthorized")] :=
  ⟨by decide, by decide,
   routeGuard_admin_nonadmin_redirects "/admin" "A" "I" (some "Users")
     (by decide) (by decide)⟩

/-- C7: a request to /login with both token markers present redirects to
/dashboard; with at least one marker absent it continues. -/
theorem routeGuard_login_page_decision (c : Cookies) :
    (c.accessToken.isSome = true ∧ c.idToken.isSome = true →
      middleware "/login" c = Decision.redirect "/dashboard" []) ∧
    (¬(c.accessToken.isSome = true ∧ c.idToken.isSome = true) →
      middleware "/login" c = Decision.next) := by
  have h1 : isAuthenticatedRoute "/login" = false := by decide
  have h2 : isAdminRoute "/login" = false := by decide
  have h3 : isPublicRoute "/login" = true := by decide
  have h4 : jsStartsWith "/login" "/login" = true := by decide
  obtain ⟨a, i, g⟩ := c
  constructor
  · rintro ⟨ha, hi⟩
    cases a <;> cases i <;> simp_all [middleware]
  · intro hn
    cases a <;> cases i <;> simp_all [middleware]

/-- Witness for C7: both markers present, and a marker absent. -/
theorem routeGuard_login_page_decision_witness :
    middleware "/login" ⟨some "A", some "I", none⟩ =
      Decision.redirect "/dashboard" [] ∧
    middleware "/login" ⟨none, none, none⟩ = Decision.next :=
  ⟨(routeGuard_login_page_decision ⟨some "A", some "I", none⟩).1 ⟨rfl, rfl⟩,
   (routeGuard_login_page_decision ⟨none, none, none⟩).2 (by simp)⟩

/-- C9: the route guard is deterministic — any two evaluations agreeing on
the path, on the presence of each of the two token-marker cookies, and on
the userGroup cookie value produce identical decisions even when the
marker values differ — and total (every input yields either continue or a
redirect; there is no error outcome and no state between invocations). -/
theorem routeGuard_deterministic_total (p : String) (c : Cookies) :
    (∀ p2 c2, p = p2 →
      c.accessToken.isSome = c2.accessToken.isSome →
      c.idToken.isSome = c2.idToken.isSome →
      c.userGroup = c2.userGroup →
      middleware p c = middleware p2 c2) ∧
    (middleware p c = Decision.next ∨
      ∃ target query, middleware p c = Decision.redirect target query) := by
  refine ⟨?_, ?_⟩
  · rintro p2 c2 rfl h1 h2 h3
    simp only [middleware]
    rw [h1, h2, h3]
  · cases hm : middleware p c with
    | next => exact Or.inl rfl
    | redirect t q => exact Or.inr ⟨t, q, hm ▸ rfl⟩

/-- Witness for C9: two jars agreeing on marker presence and group but
with different marker values get the same decision at /dashboard/x. -/
theorem routeGuard_deterministic_total_witness :
    middleware "/dashboard/x" ⟨some "A", some "I", some "g"⟩ =
      middleware "/dashboard/x" ⟨some "B", some "J", some "g"⟩ ∧
    (middleware "/dashboard/x" ⟨some "A", some "I", some "g"⟩ =
        Decision.next ∨
      ∃ target query,
        middleware "/dashboard/x" ⟨some "A", some "I", some "g"⟩ =
          Decision.redirect target query) :=
  ⟨(routeGuard_deterministic_total "/dashboard/x"
      ⟨some "A", some "I", some "g"⟩).1 "/dashboard/x"
     ⟨some "B", some "J", some "g"⟩ rfl rfl rfl rfl,
   (routeGuard_deterministic_total "/dashboard/x"
      ⟨some "A", some "I", some "g"⟩).2⟩

/-- C3 counterexample: after a successful refresh followed by a failed
refresh, the session is empty while both token-marker cookies still
assert authentication, so the cookie projection asserts authentication
the session does not have. -/
theorem cookie_projection_lag_counterexample :
    (run staleTrace).user = none ∧
    cookiesAssert (run staleTrace).cookies = true :=
  ⟨rfl, rfl⟩

/-- C3 amended: the cookie projection may lag behind an emptied session,
but it never fabricates authentication: in every reachable state the
marker cookies assert authentication only if some earlier refreshUser
succeeded with both tokens truthy and no successful logout followed it. -/
theorem cookie_assert_requires_refresh_success (ops : List Op)
    (h : cookiesAssert (run ops).cookies = true) :
    ∃ pre cu sd attrs post,
      ops = pre ++ Op.refreshOp (RefreshOutcome.ok cu sd attrs) :: post ∧
      tokensTruthy sd.tokens = true ∧
      Op.logoutOp LogoutOutcome.ok ∉ post := by
  induction ops using List.reverseRecOn with
  | nil => simp [run, initState, cookiesAssert] at h
  | append_singleton ops op ih =>
    rw [run_append_single] at h
    cases op with
    | refreshOp o =>
      cases o with
      | ok cu sd attrs =>
        by_cases htt : tokensTruthy sd.tokens = true
        · exact ⟨ops, cu, sd, attrs, [], rfl, htt, List.not_mem_nil _⟩
        · have hnt : tokensTruthy sd.tokens = false :=
            Bool.not_eq_true _ ▸ Bool.of_not_eq_true htt
          have hc : cookiesAssert (run ops).cookies = true := by
            simpa [step, refreshUser,
              setAuthCookies_not_truthy (run ops).cookies sd.tokens hnt]
              using h
          exact history_extend (by intro hx; cases hx) (ih hc)
      | err =>
        have hc : cookiesAssert (run ops).cookies = true := by
          simpa [step, refreshUser] using h
        exact history_extend (by intro hx; cases hx) (ih hc)
    | loginOp o =>
      have hc : cookiesAssert (run ops).cookies = true := by
        cases o <;> simpa [step, login] using h
      exact history_extend (by intro hx; cases hx) (ih hc)
    | logoutOp o =>
      cases o with
      | ok => simp [step, logout, clearAuthCookies, cookiesAssert] at h
      | err e =>
        have hc : cookiesAssert (run ops).cookies = true := by
          simpa [step, logout] using h
        exact history_extend (by intro hx; cases hx) (ih hc)

/-- Witness for the amended C3 on a one-step trace. -/
theorem cookie_assert_requires_refresh_success_witness :
    cookiesAssert (run [Op.refreshOp goodRefresh]).cookies = true ∧
    (∃ pre cu sd attrs post,
      [Op.refreshOp goodRefresh] =
        pre ++ Op.refreshOp (RefreshOutcome.ok cu sd attrs) :: post ∧
      tokensTruthy sd.tokens = true ∧
      Op.logoutOp LogoutOutcome.ok ∉ post) :=
  ⟨rfl, cookie_assert_requires_refresh_success [Op.refreshOp goodRefresh] rfl⟩

/-- C4 counterexample: when provider sign-out throws, logout leaves the
state untouched — the user is still set and both marker cookies still
assert authentication — contradicting unconditional clearing. -/
theorem logout_failure_counterexample :
    (logout sampleSignedIn (LogoutOutcome.err "network")).1 = sampleSignedIn ∧
    (logout sampleSignedIn (LogoutOutcome.err "network")).1.user ≠ none ∧
    cookiesAssert
      (logout sampleSignedIn (LogoutOutcome.err "network")).1.cookies = true :=
  ⟨rfl, by decide, rfl⟩

/-- C4 amended: logout clears the cookie projection and the session only
when provider sign-out succeeds; when sign-out throws, neither is cleared
and the error is rethrown to the caller. -/
theorem logout_clears_only_on_success (s : AuthState) :
    ((logout s LogoutOutcome.ok).1.cookies =
       { accessToken := none, idToken := none, userGroup := none } ∧
     (logout s LogoutOutcome.ok).1.user = none ∧
     (logout s LogoutOutcome.ok).2 = Except.ok ()) ∧
    (∀ e, (logout s (LogoutOutcome.err e)).1 = s ∧
          (logout s (LogoutOutcome.err e)).2 = Except.error e) :=
  ⟨⟨rfl, rfl, rfl⟩, fun _ => ⟨rfl, rfl⟩⟩

/-- C5 counterexample: a provider failure inside login is rethrown to the
caller as an error outcome, and the session it observes is not the empty
session. -/
theorem login_failure_propagates_counterexample :
    (login sampleSignedIn (LoginOutcome.err "NotAuthorized")).2 =
      Except.error "NotAuthorized" ∧
    (login sampleSignedIn (LoginOutcome.err "NotAuthorized")).1.user ≠ none :=
  ⟨rfl, by decide⟩

/-- C5 amended: provider failures inside refreshUser are caught at the
store boundary — refreshUser always returns normally with the session
cleared — while failures inside login and logout are rethrown to the
caller, with the state left unchanged. -/
theorem provider_failure_propagation (s : AuthState) :
    refreshUser s RefreshOutcome.err = { s with user := none, loading := false } ∧
    (∀ e, (login s (LoginOutcome.err e)).2 = Except.error e ∧
          (login s (LoginOutcome.err e)).1 = s) ∧
    (∀ e, (logout s (LogoutOutcome.err e)).2 = Except.error e ∧
          (logout s (LogoutOutcome.err e)).1 = s) :=
  ⟨rfl, fun _ => ⟨rfl, rfl⟩, fun _ => ⟨rfl, rfl⟩⟩

/-- C6: every refreshUser failure clears the session to empty and records
nothing beyond that (the failing state differs from the previous state
only in the user and loading fields), and on every exit, success or
failure, the loading flag is false. -/
theorem refreshUser_failure_clears_loading_false (s : AuthState) :
    (∀ o, (refreshUser s o).loading = false) ∧
    refreshUser s RefreshOutcome.err = { s with user := none, loading := false } := by
  refine ⟨?_, rfl⟩
  intro o
  cases o <;> rfl

/-- C8 counterexample: with both tokens truthy and group sequence [""]
(first element the empty string), the userGroup cookie is set to the
sentinel none rather than to the first element. -/
theorem setAuthCookies_first_group_counterexample :
    (setAuthCookies { accessToken := none, idToken := none, userGroup := none }
      (some { accessToken := some { raw := "A", groups := [""] },
              idToken := some { raw := "I", groups := [] } })).userGroup
      = some "none" ∧ ("none" : String) ≠ "" :=
  ⟨rfl, by decide⟩

/-- C8 amended: when both token strings are truthy, the userGroup cookie
is set to the sentinel none when the group sequence is empty, to the
first element when that element is a non-empty string, and to the
sentinel none when the first element is the empty string. -/
theorem setAuthCookies_primary_group (jar : Cookies) (ra ri : String)
    (gs gi : List String) (ha : ra ≠ "") (hi : ri ≠ "") :
    (gs = [] →
      (setAuthCookies jar
        (some { accessToken := some { raw := ra, groups := gs },
                idToken := some { raw := ri, groups := gi } })).userGroup
        = some "none") ∧
    (∀ g rest, gs = g :: rest → g ≠ "" →
      (setAuthCookies jar
        (some { accessToken := some { raw := ra, groups := gs },
                idToken := some { raw := ri, groups := gi } })).userGroup
        = some g) ∧
    (∀ rest, gs = "" :: rest →
      (setAuthCookies jar
        (some { accessToken := some { raw := ra, groups := gs },
                idToken := some { raw := ri, groups := gi } })).userGroup
        = some "none") := by
  have ha2 : (ra == "") = false := beq_eq_false_iff_ne.mpr ha
  have hi2 : (ri == "") = false := beq_eq_false_iff_ne.mpr hi
  refine ⟨?_, ?_, ?_⟩
  · intro hgs
    subst hgs
    simp [setAuthCookies, jsTruthy, ha2, hi2]
  · intro g rest hgs hg
    subst hgs
    have hg2 : (g == "") = false := beq_eq_false_iff_ne.mpr hg
    simp [setAuthCookies, jsTruthy, ha2, hi2, hg2]
  · intro rest hgs
    subst hgs
    simp [setAuthCookies, jsTruthy, ha2, hi2]

/-- Witness for the amended C8 at groups [DataWovenAdmin, X]. -/
theorem setAuthCookies_primary_group_witness :
    ("A" : String) ≠ "" ∧ ("I" : String) ≠ "" ∧
    ("DataWovenAdmin" : String) ≠ "" ∧
    (setAuthCookies { accessToken := none, idToken := none, userGroup := none }
      (some { accessToken := some { raw := "A",
                                    groups := ["DataWovenAdmin", "X"] },
              idToken := some { raw := "I", groups := [] } })).userGroup
      = some "DataWovenAdmin" :=
  ⟨by decide, by decide, by decide,
   (setAuthCookies_primary_group
      { accessToken := none, idToken := none, userGroup := none }
      "A" "I" ["DataWovenAdmin", "X"] [] (by decide) (by decide)).2.1
     "DataWovenAdmin" ["X"] rfl (by decide)⟩

/-- C10: when the access token or the id token is absent or empty,
setAuthCookies writes nothing: all three cookies keep their previous
values and the call returns normally. -/
theorem setAuthCookies_missing_token_noop (jar : Cookies) (t : Option Tokens)
    (h : jsTruthy ((t.bind Tokens.accessToken).map JWToken.raw) = false ∨
         jsTruthy ((t.bind Tokens.idToken).map JWToken.raw) = false) :
    setAuthCookies jar t = jar := by
  apply setAuthCookies_not_truthy
  unfold tokensTruthy
  rcases h with h | h
  · rw [h, Bool.false_and]
  · rw [h, Bool.and_false]

/-- Witness for C10: an undefined tokens object leaves a jar with one
stale marker untouched. -/
theorem setAuthCookies_missing_token_noop_witness :
    (jsTruthy ((Option.bind (none : Option Tokens) Tokens.accessToken).map
        JWToken.raw) = false ∨
     jsTruthy ((Option.bind (none : Option Tokens) Tokens.idToken).map
        JWToken.raw) = false) ∧
    setAuthCookies
      { accessToken := some "stale", idToken := none, userGroup := some "g" }
      none =
      { accessToken := some "stale", idToken := none, userGroup := some "g" } :=
  ⟨Or.inl rfl,
   setAuthCookies_missing_token_noop
     { accessToken := some "stale", idToken := none, userGroup := some "g" }
     none (Or.inl rfl)⟩

end DataWoven
